import Mathlib

/-!
Verification of the binance-colo-research measurement pipeline.

The Python sources (parser.py, network.py, geo.py, cli.py, reporter.py) are
shallowly embedded below: pure fragments become Lean functions, network and
clock effects become explicit oracle parameters (the value a DNS lookup, a
TLS handshake or a performance counter would have produced), and Python
exceptions become Except / Option values.  Machine floats are modelled by
the rationals; strings of interest are ASCII, for which Lean's
Char.toLower / Char.isWhitespace agree with Python's str.lower / str.strip.
-/

/-! ## parser.py -/

/- Python str.strip(): drop leading and trailing whitespace. -/
def stripChars (l : List Char) : List Char :=
  ((l.dropWhile Char.isWhitespace).reverse.dropWhile Char.isWhitespace).reverse

/- Python regex class \w restricted to ASCII inputs: letters, digits, underscore. -/
def isWordChar (c : Char) : Bool := c.isAlphanum || c = '_'

/- The double-quote character (written via its code point to keep source plain). -/
def dq : Char := Char.ofNat 34

/- Strip a literal from the front of a character list, or fail. -/
def dropLit : List Char → List Char → Option (List Char)
  | [], s => some s
  | _ :: _, [] => none
  | c :: cs, d :: ds => if c = d then dropLit cs ds else none

/- The regex alternation (https?://|wss://): greedy s? never needs backtracking,
so it is equivalent to trying the three literals in this order. -/
def matchScheme (s : List Char) : Option (List Char) :=
  match dropLit "https://".data s with
  | some r => some r
  | none =>
    match dropLit "http://".data s with
    | some r => some r
    | none => dropLit "wss://".data s

/- Attempt the pattern (\w+)\s*=\s*"(https?://|wss://)([^"/]+) at the head of s,
returning groups 1 and 3.  Each greedy piece is followed by a character it can
never match, so maximal munch needs no backtracking. -/
def matchAssignAt (s : List Char) : Option (String × String) :=
  let name := s.takeWhile isWordChar
  if name.isEmpty then none
  else
    let r1 := (s.dropWhile isWordChar).dropWhile Char.isWhitespace
    match r1 with
    | '=' :: r2 =>
      let r3 := r2.dropWhile Char.isWhitespace
      match r3 with
      | c :: r4 =>
        if c = dq then
          match matchScheme r4 with
          | some r5 =>
            let dom := r5.takeWhile (fun x => x ≠ dq && x ≠ '/')
            if dom.isEmpty then none else some (String.mk name, String.mk dom)
          | none => none
        else none
      | [] => none
    | _ => none

/- re.search: try the pattern at each start offset, leftmost success wins. -/
def searchAssign : List Char → Option (String × String)
  | [] => none
  | c :: cs =>
    match matchAssignAt (c :: cs) with
    | some r => some r
    | none => searchAssign cs

structure EndpointConstant where
  constant : String
  category : String
  domain : String
deriving DecidableEq, Repr

/- Python `category or "Unknown"`: both None and the empty string are falsy. -/
def pyOr (c : Option String) : String :=
  match c with
  | none => "Unknown"
  | some s => if s = "" then "Unknown" else s

/- One iteration of the parse_constants line loop.  State: records so far and
the current category (None before any category line).  The line is stripped;
a leading hash makes it a category line (category := line[1:].strip()); else
the assignment pattern is searched for. -/
def parseStep (st : List EndpointConstant × Option String) (rawLine : String) :
    List EndpointConstant × Option String :=
  match stripChars rawLine.data with
  | '#' :: rest => (st.1, some (String.mk (stripChars rest)))
  | line =>
    match searchAssign line with
    | some nd => (st.1 ++ [{ constant := nd.1, category := pyOr st.2, domain := nd.2 }], st.2)
    | none => st

def parseFrom (st : List EndpointConstant × Option String) (lines : List String) :
    List EndpointConstant × Option String :=
  lines.foldl parseStep st

/- parse_constants, with the file already split into lines. -/
def parseConstants (lines : List String) : List EndpointConstant :=
  (parseFrom ([], none) lines).1

/-! ## network.py -/

/- True when the first list is an initial segment of the second. -/
def beginsWith : List Char → List Char → Bool
  | [], _ => true
  | _ :: _, [] => false
  | c :: cs, d :: ds => c = d && beginsWith cs ds

/- Python substring test `needle in hay`. -/
def strContains (needle : String) : List Char → Bool
  | [] => needle.data.isEmpty
  | c :: cs => beginsWith needle.data (c :: cs) || strContains needle cs

/- reverse_dns_aws, with the PTR lookup outcome as an oracle: none models any
exception (no PTR record, lookup failure), some raw the raw PTR text. -/
def reverseDnsAws (lookup : Option String) : String :=
  match lookup with
  | none => "No PTR"
  | some raw =>
    let ptr := raw.data.map Char.toLower
    if strContains "ap-northeast-1" ptr then
      let az := ptr.filter (fun c => "abcdef".data.contains c)
      "AWS TOKYO ap-northeast-1" ++ String.mk (if az = [] then ['?'] else az)
    else String.mk (ptr.take 50)

/- resolve_ips, with the DNS answer as an oracle: none models an exception
from the resolver (NXDOMAIN, timeout, no records), some records the textual
A records.  The Python body collects the records into a set and returns
sorted(ips); a sorted permutation of a duplicate-free list is unique, so
insertion sort of the deduplicated records is that value. -/
def resolveIps (answer : Option (List String)) : List String :=
  match answer with
  | none => []
  | some records => List.insertionSort (fun a b : String => a ≤ b) records.dedup

structure LatencyResult where
  ip : String
  latency_ms : ℚ
  success : Bool
deriving DecidableEq, Repr

/- Python round(x, 2).  (Python rounds ties to even; ties at the third decimal
place play no role in any claim.) -/
def round2 (x : ℚ) : ℚ := (round (100 * x) : ℤ) / 100

/- The try block of test_latency.  connect and handshake are oracles for the
two network operations (error = the exception raised); tStart and tDone are
the perf_counter readings at the start and at handshake completion. -/
def tlsAttempt (ip : String) (connect handshake : Except String Unit)
    (tStart tDone : ℚ) : Except String LatencyResult :=
  match connect with
  | .error e => .error e
  | .ok _ =>
    match handshake with
    | .error e => .error e
    | .ok _ => .ok { ip := ip, latency_ms := round2 ((tDone - tStart) * 1000), success := true }

/- test_latency: the except branch reads the clock again (tFail, the reading
at the moment the failure is detected) and reports success := false. -/
def test_latency (ip : String) (connect handshake : Except String Unit)
    (tStart tDone tFail : ℚ) : LatencyResult :=
  match tlsAttempt ip connect handshake tStart tDone with
  | .ok r => r
  | .error _ => { ip := ip, latency_ms := round2 ((tFail - tStart) * 1000), success := false }

/-! ## geo.py -/

/- JSON values, as produced by response.json(). -/
inductive J where
  | jnull : J
  | jbool : Bool → J
  | jnum : ℚ → J
  | jstr : String → J
  | jarr : List J → J
  | jobj : List (String × J) → J

/- Python dict.get(key, default): the stored value (whatever it is, None
included) when the key is present, the default otherwise. -/
def dictGet (m : List (String × J)) (k : String) (default : J) : J :=
  match m.lookup k with
  | some v => v
  | none => default

structure GeoResult where
  country : J
  region : J
  city : J

def unknownStr : J := J.jstr "Unknown"

def allUnknown : GeoResult := ⟨unknownStr, unknownStr, unknownStr⟩

/- get_geo, with the HTTP exchange as an oracle: none models a transport
error or timeout; some (status, body) a response, where body none models a
body on which response.json() raises.  A parsed body that is not a JSON
object makes data.get raise AttributeError, which the same except branch
swallows into the all-Unknown fallback. -/
def get_geo (resp : Option (Nat × Option J)) : GeoResult :=
  match resp with
  | none => allUnknown
  | some (status, body) =>
    if status = 200 then
      match body with
      | some (J.jobj m) =>
        ⟨dictGet m "country" unknownStr, dictGet m "region" unknownStr, dictGet m "city" unknownStr⟩
      | some _ => allUnknown
      | none => allUnknown
    else allUnknown

/-! ## cli.py -/

/- classify_status: the Python `and` of a Bool and a float comparison. -/
def classifyStatus (success : Bool) (latency_ms threshold : ℚ) : String :=
  if success = true ∧ latency_ms < threshold then "COLO"
  else if success = true then "SLOW"
  else "FAIL"

/- One row of the final result collection (reporter.TestResult). -/
structure TestResult where
  constant : String
  category : String
  domain : String
  ip : String
  latency_ms : ℚ
  status : String
  aws_region : String
  country : String
  region : String
  city : String
deriving DecidableEq, Repr

/- One (constant, category, domain, ip) probe target. -/
structure Target where
  constant : String
  category : String
  domain : String
  ip : String
deriving DecidableEq, Repr

/- The DNS resolution loop of main: a dict from domain to resolved IPs,
filled only for domains not yet present.  The second component records every
invocation of the resolver, in order, so that the at-most-once property can
be stated.  resolve is the oracle for resolve_ips. -/
def resolveStep (resolve : String → List String)
    (st : List (String × List String) × List String) (e : EndpointConstant) :
    List (String × List String) × List String :=
  if (st.1.lookup e.domain).isSome then st
  else (st.1 ++ [(e.domain, resolve e.domain)], st.2 ++ [e.domain])

def resolveLoop (resolve : String → List String)
    (constants : List EndpointConstant) : List (String × List String) × List String :=
  constants.foldl (resolveStep resolve) ([], [])

/- Python domain_ip_map.get(domain, []). -/
def mapGet (m : List (String × List String)) (d : String) : List String :=
  match m.lookup d with
  | some l => l
  | none => []

/- The target-building loop of main: each endpoint expanded against the
cached IPs of its domain, in file order. -/
def buildTargets (constants : List EndpointConstant)
    (m : List (String × List String)) : List Target :=
  constants.flatMap
    (fun e => (mapGet m e.domain).map
      (fun ip => { constant := e.constant, category := e.category, domain := e.domain, ip := ip }))

/- Geo fields as the cli consumes them (geo["country"], ...). -/
structure GeoTriple where
  country : String
  region : String
  city : String
deriving DecidableEq, Repr

/- Probe outcome as the cli consumes it. -/
structure ProbeOutcome where
  ip : String
  latency_ms : ℚ
  success : Bool
deriving DecidableEq, Repr

/- The body of the as_completed loop for one finished future: enrich the
probe outcome with reverse DNS, geolocation and the status verdict.  probe,
rdns and geo are oracles for the three network components. -/
def enrich (probe : Target → ProbeOutcome) (rdns : String → String)
    (geo : String → GeoTriple) (threshold : ℚ) (t : Target) : TestResult :=
  let r := probe t
  let aws := rdns r.ip
  let g := geo r.ip
  { constant := t.constant, category := t.category, domain := t.domain, ip := r.ip,
    latency_ms := r.latency_ms,
    status := classifyStatus r.success r.latency_ms threshold,
    aws_region := aws, country := g.country, region := g.region, city := g.city }

/- The whole as_completed loop: every submitted future is consumed exactly
once, in an arbitrary completion order, so the loop is the enrichment mapped
over some permutation of the target list. -/
def gatherResults (probe : Target → ProbeOutcome) (rdns : String → String)
    (geo : String → GeoTriple) (threshold : ℚ) (completion : List Target) : List TestResult :=
  completion.map (enrich probe rdns geo threshold)

/- The COLO tally (cli increments it per appended result whose status is
COLO; reporter.generate_html recounts it the same way from the list). -/
def coloCount (results : List TestResult) : Nat :=
  results.countP (fun r => r.status = "COLO")

/- colo_percentage = (colo_count / total_count * 100) if total_count > 0 else 0. -/
def coloPercentage (results : List TestResult) : ℚ :=
  if 0 < results.length then (coloCount results : ℚ) / (results.length : ℚ) * 100 else 0

/-! ## Claims -/

/-- Claim C2: classify_status is a pure total function of
(success, latencyMs, threshold): success with latency strictly below the
threshold yields COLO, success with latency at or above the threshold yields
SLOW (equality is SLOW, not COLO), and failure yields FAIL regardless of the
latency; in particular classify(true, 11.99, 12.0) = COLO,
classify(true, 12.0, 12.0) = SLOW, classify(false, 0.0, 12.0) = FAIL. -/
theorem c2_classify_status_spec (s : Bool) (l t : ℚ) :
    (s = true → l < t → classifyStatus s l t = "COLO") ∧
    (s = true → t ≤ l → classifyStatus s l t = "SLOW") ∧
    (s = false → classifyStatus s l t = "FAIL") ∧
    classifyStatus true (1199 / 100) 12 = "COLO" ∧
    classifyStatus true 12 12 = "SLOW" ∧
    classifyStatus false 0 12 = "FAIL" := by
  refine ⟨fun hs hl => ?_, fun hs hl => ?_, fun hs => ?_, ?_, ?_, ?_⟩
  · simp [classifyStatus, hs, hl]
  · simp [classifyStatus, hs, not_lt.mpr hl]
  · simp [classifyStatus, hs]
  · have h : (1199 : ℚ) / 100 < 12 := by norm_num
    simp [classifyStatus, h]
  · simp [classifyStatus]
  · simp [classifyStatus]

/-- Witness for C2 at the concrete boundary inputs. -/
theorem c2_classify_status_witness :
    classifyStatus true (1199 / 100) 12 = "COLO" ∧ classifyStatus true 12 12 = "SLOW" :=
  ⟨(c2_classify_status_spec true (1199 / 100) 12).1 rfl (by norm_num),
   (c2_classify_status_spec true 12 12).2.1 rfl le_rfl⟩

/- A result row whose only varying field is the status, for the summary example. -/
def mkResult (status : String) : TestResult :=
  { constant := "C", category := "Cat", domain := "d", ip := "i", latency_ms := 0,
    status := status, aws_region := "No PTR", country := "Unknown", region := "Unknown",
    city := "Unknown" }

/- The result set of the summary example: 3 COLO, 2 SLOW, 1 FAIL. -/
def sixResults : List TestResult :=
  [mkResult "COLO", mkResult "COLO", mkResult "COLO",
   mkResult "SLOW", mkResult "SLOW", mkResult "FAIL"]

/-- Claim C5: the summary never divides by zero: colo_percentage equals
colo_count / total_count * 100 when total_count > 0 and equals 0 when
total_count = 0; on 3 COLO, 2 SLOW, 1 FAIL it reports colo_count = 3,
total_count = 6, colo_percentage = 50. -/
theorem c5_summary_spec (results : List TestResult) :
    (results.length = 0 → coloPercentage results = 0) ∧
    (0 < results.length →
      coloPercentage results = (coloCount results : ℚ) / (results.length : ℚ) * 100) ∧
    coloCount sixResults = 3 ∧ sixResults.length = 6 ∧ coloPercentage sixResults = 50 := by
  refine ⟨fun h => ?_, fun h => ?_, by decide, by decide, ?_⟩
  · simp [coloPercentage, h]
  · simp [coloPercentage, h]
  · have h3 : coloCount sixResults = 3 := by decide
    have h6 : sixResults.length = 6 := by decide
    simp only [coloPercentage, h3, h6]
    norm_num

/-- Witness for C5 on the empty result set. -/
theorem c5_summary_witness : coloPercentage [] = 0 :=
  (c5_summary_spec []).1 rfl

/-- Claim C7: resolve returns a deduplicated list sorted ascending, and any
resolution failure produces the empty list instead of an error, so an
unresolvable domain contributes zero targets. -/
theorem c7_resolve_ips_spec (records : List String) :
    resolveIps none = [] ∧
    (resolveIps (some records)).Nodup ∧
    List.Sorted (fun a b : String => a ≤ b) (resolveIps (some records)) ∧
    (∀ s, s ∈ resolveIps (some records) ↔ s ∈ records) := by
  refine ⟨rfl, ?_, ?_, fun s => ?_⟩
  · show (List.insertionSort (fun a b : String => a ≤ b) records.dedup).Nodup
    exact ((List.perm_insertionSort _ _).symm).nodup (List.nodup_dedup records)
  · show List.Sorted _ (List.insertionSort (fun a b : String => a ≤ b) records.dedup)
    exact List.sorted_insertionSort _ _
  · show s ∈ List.insertionSort (fun a b : String => a ≤ b) records.dedup ↔ s ∈ records
    exact ((List.perm_insertionSort _ _).mem_iff).trans List.mem_dedup

/-- Claim C8: test_latency never raises past its boundary: for every oracle
outcome of the connect and handshake steps and every pair of clock readings
it returns a populated result carrying the probed ip, success holds exactly
when both the connection and the TLS handshake completed, the reported
latency is the elapsed time in milliseconds rounded to two decimals, measured
to handshake completion on success and to failure detection otherwise. -/
theorem c8_test_latency_spec (ip : String) (connect handshake : Except String Unit)
    (tStart tDone tFail : ℚ) :
    (test_latency ip connect handshake tStart tDone tFail).ip = ip ∧
    ((test_latency ip connect handshake tStart tDone tFail).success = true ↔
      connect = Except.ok () ∧ handshake = Except.ok ()) ∧
    (connect = Except.ok () → handshake = Except.ok () →
      (test_latency ip connect handshake tStart tDone tFail).latency_ms =
        round2 ((tDone - tStart) * 1000)) ∧
    (¬(connect = Except.ok () ∧ handshake = Except.ok ()) →
      (test_latency ip connect handshake tStart tDone tFail).success = false ∧
      (test_latency ip connect handshake tStart tDone tFail).latency_ms =
        round2 ((tFail - tStart) * 1000)) := by
  cases connect with
  | error e => simp [test_latency, tlsAttempt, Except.bind]
  | ok u =>
    cases u
    cases handshake with
    | error e => simp [test_latency, tlsAttempt, Except.bind]
    | ok v =>
      cases v
      simp [test_latency, tlsAttempt, Except.bind]

/-- Witness for C8: a handshake failure at clock reading 1 after a start at 0. -/
theorem c8_test_latency_witness :
    (test_latency "1.2.3.4" (Except.ok ()) (Except.error "refused") 0 2 1).success = false ∧
    (test_latency "1.2.3.4" (Except.ok ()) (Except.error "refused") 0 2 1).latency_ms =
      round2 ((1 - 0) * 1000) :=
  (c8_test_latency_spec "1.2.3.4" (Except.ok ()) (Except.error "refused") 0 2 1).2.2.2
    (by simp)

/-- Claim C4: the final result collection contains exactly one row per
resolved target: whatever the probe, reverse-DNS and geolocation oracles do
and in whatever order the futures complete, the gathered results have the
same length as the Cartesian target expansion. -/
theorem c4_completeness (probe : Target → ProbeOutcome) (rdns : String → String)
    (geo : String → GeoTriple) (threshold : ℚ) (constants : List EndpointConstant)
    (m : List (String × List String)) (completion : List Target)
    (h : completion.Perm (buildTargets constants m)) :
    (gatherResults probe rdns geo threshold completion).length =
      (buildTargets constants m).length := by
  simpa [gatherResults] using h.length_eq

/-- Witness for C4 on a one-endpoint, two-address run. -/
theorem c4_completeness_witness :
    (gatherResults (fun t => { ip := t.ip, latency_ms := 0, success := false })
      (fun _ => "No PTR")
      (fun _ => { country := "Unknown", region := "Unknown", city := "Unknown" }) 12
      (buildTargets [{ constant := "A", category := "Spot", domain := "d.com" }]
        [("d.com", ["1.1.1.1", "2.2.2.2"])])).length =
    (buildTargets [{ constant := "A", category := "Spot", domain := "d.com" }]
      [("d.com", ["1.1.1.1", "2.2.2.2"])]).length :=
  c4_completeness _ _ _ _ _ _ _ (List.Perm.refl _)

/- Every parse step leaves the records already gathered in place, appending
at most one new record after them. -/
lemma parseStep_extends (st : List EndpointConstant × Option String) (l : String) :
    ∃ extra, (parseStep st l).1 = st.1 ++ extra := by
  unfold parseStep
  split
  · exact ⟨[], (List.append_nil _).symm⟩
  · split
    · exact ⟨_, rfl⟩
    · exact ⟨[], (List.append_nil _).symm⟩

/- Hence the records produced by any run extend the starting records: output
rows appear in file order after whatever was already parsed. -/
lemma parseFrom_extends (lines : List String) :
    ∀ st : List EndpointConstant × Option String,
      ∃ tail, (parseFrom st lines).1 = st.1 ++ tail := by
  induction lines with
  | nil => exact fun st => ⟨[], (List.append_nil _).symm⟩
  | cons l ls ih =>
    intro st
    obtain ⟨extra, hextra⟩ := parseStep_extends st l
    obtain ⟨tail, htail⟩ := ih (parseStep st l)
    exact ⟨extra ++ tail,
      by rw [show parseFrom st (l :: ls) = parseFrom (parseStep st l) ls from rfl,
             htail, hextra, List.append_assoc]⟩

/-- Claim C3 (amended): a stripped line that is not a category line and
matches the assignment pattern yields exactly one record carrying the current
category, a non-matching line is ignored, records appear in file order, and
the parsed domain stops at the first slash, so the URL path is stripped but
an explicit :port is retained (wss://ws.example.com/stream gives
ws.example.com, while wss://host:9443/stream gives host:9443). -/
theorem c3_assignment_spec (recs : List EndpointConstant) (cat : Option String)
    (line : String) (nm dom : String) (st : List EndpointConstant × Option String)
    (lines : List String) :
    (stripChars line.data ≠ [] →
      (stripChars line.data).head? ≠ some '#' →
      searchAssign (stripChars line.data) = some (nm, dom) →
      parseStep (recs, cat) line =
        (recs ++ [{ constant := nm, category := pyOr cat, domain := dom }], cat)) ∧
    ((stripChars line.data).head? ≠ some '#' →
      searchAssign (stripChars line.data) = none →
      parseStep (recs, cat) line = (recs, cat)) ∧
    (∃ tail, (parseFrom st lines).1 = st.1 ++ tail) ∧
    parseConstants ["# Spot", "A_URL = \"https://api.example.com\"",
        "B_URL = \"wss://ws.example.com/stream\"", "", "# Futures",
        "C_URL = \"https://f.example.org\""] =
      [{ constant := "A_URL", category := "Spot", domain := "api.example.com" },
       { constant := "B_URL", category := "Spot", domain := "ws.example.com" },
       { constant := "C_URL", category := "Futures", domain := "f.example.org" }] ∧
    parseConstants ["W = \"wss://host:9443/stream\""] =
      [{ constant := "W", category := "Unknown", domain := "host:9443" }] := by
  refine ⟨?_, ?_, parseFrom_extends lines st, by decide, by decide⟩
  · intro hne hhash hmatch
    unfold parseStep
    rcases hl : stripChars line.data with _ | ⟨c, cs⟩
    · exact absurd hl hne
    · have hc : c ≠ '#' := by
        intro h
        exact hhash (by rw [hl, h]; rfl)
      rw [hl] at hmatch
      simp only []
      split
      · rename_i rest heq
        injection heq with h1 h2
        exact absurd h1 hc
      · rw [hmatch]
  · intro hhash hnone
    unfold parseStep
    rcases hl : stripChars line.data with _ | ⟨c, cs⟩
    · rw [hl] at hnone
      simp only []
      rw [hnone]
    · have hc : c ≠ '#' := by
        intro h
        exact hhash (by rw [hl, h]; rfl)
      rw [hl] at hnone
      simp only []
      split
      · rename_i rest heq
        injection heq with h1 h2
        exact absurd h1 hc
      · rw [hnone]

/-- Counterexample to C3 as stated: the domain group of the assignment
pattern excludes only quote and slash, so an explicit port is kept: the line
W = "wss://host:9443/stream" parses to domain host:9443, not the bare
hostname host. -/
theorem c3_counterexample :
    parseConstants ["W = \"wss://host:9443/stream\""] =
      [{ constant := "W", category := "Unknown", domain := "host:9443" }] ∧
    "host:9443" ≠ "host" := ⟨by decide, by decide⟩

/-- Witness for C3 on a concrete assignment line under no category. -/
theorem c3_assignment_witness :
    parseStep ([], none) "B_URL = \"wss://ws.example.com/stream\"" =
      ([{ constant := "B_URL", category := "Unknown", domain := "ws.example.com" }], none) :=
  (c3_assignment_spec [] none "B_URL = \"wss://ws.example.com/stream\""
      "B_URL" "ws.example.com" ([], none) []).1 (by decide) (by decide) (by decide)

/- Records parsed under the explicit empty category equal those parsed with
no category at all: both collapse to the Unknown default. -/
lemma parseFrom_empty_cat (lines : List String) :
    ∀ recs : List EndpointConstant,
      (parseFrom (recs, some "") lines).1 = (parseFrom (recs, none) lines).1 := by
  induction lines with
  | nil => intro recs; rfl
  | cons l ls ih =>
    intro recs
    show (parseFrom (parseStep (recs, some "") l) ls).1 =
      (parseFrom (parseStep (recs, none) l) ls).1
    unfold parseStep
    rcases hl : stripChars l.data with _ | ⟨c, cs⟩
    · rcases hs : searchAssign [] with _ | nd
      · exact ih recs
      · simp only [pyOr]
        exact ih _
    · by_cases hc : c = '#'
      · subst hc
        rfl
      · simp only []
        split
        · rename_i rest heq
          injection heq with h1 h2
          exact absurd h1 hc
        · rcases hs : searchAssign (c :: cs) with _ | nd
          · exact ih recs
          · simp only [pyOr]
            exact ih _

/-- Claim C10: a category line that is a hash followed only by whitespace
sets the current category to the empty string, and the records parsed below
it are exactly those that would be parsed with no category line at all: each
receives the Unknown default. -/
theorem c10_blank_category (recs : List EndpointConstant) (cat : Option String)
    (line : String) (lines : List String)
    (h : stripChars line.data = ['#']) :
    parseStep (recs, cat) line = (recs, some "") ∧
    (parseFrom (parseStep (recs, cat) line) lines).1 = (parseFrom (recs, none) lines).1 ∧
    parseConstants ["#   ", "A = \"https://x.com\""] =
      [{ constant := "A", category := "Unknown", domain := "x.com" }] := by
  have h1 : parseStep (recs, cat) line = (recs, some "") := by
    unfold parseStep
    rw [h]
    rfl
  refine ⟨h1, ?_, by decide⟩
  rw [h1]
  exact parseFrom_empty_cat lines recs

/-- Witness for C10 at a concrete whitespace-only category line. -/
theorem c10_blank_category_witness :
    parseStep ([], none) "#   " = ([], some "") :=
  (c10_blank_category [] none "#   " [] (by decide)).1

/- Looking a key up in a map whose entries pair each traced domain with its
resolution: hit exactly when the domain was traced. -/
lemma lookup_trace_map (resolve : String → List String) (trace : List String) (d : String) :
    (trace.map (fun x => (x, resolve x))).lookup d =
      if d ∈ trace then some (resolve d) else none := by
  induction trace with
  | nil => simp
  | cons a l ih =>
    by_cases h : d = a
    · subst h
      simp [List.lookup_cons]
    · have hb : (d == a) = false := by simp [h]
      simp [List.lookup_cons, hb, ih, h]

/- Invariant of the DNS resolution loop: the cache is exactly the trace of
resolver invocations paired with their answers, the trace never repeats a
domain, it only grows, and after the loop it covers every endpoint domain. -/
lemma resolveLoop_invariant (resolve : String → List String) :
    ∀ (cs : List EndpointConstant) (st : List (String × List String) × List String),
      st.1 = st.2.map (fun x => (x, resolve x)) → st.2.Nodup →
      (cs.foldl (resolveStep resolve) st).1 =
          ((cs.foldl (resolveStep resolve) st).2).map (fun x => (x, resolve x)) ∧
        ((cs.foldl (resolveStep resolve) st).2).Nodup ∧
        (∀ d ∈ st.2, d ∈ (cs.foldl (resolveStep resolve) st).2) ∧
        (∀ e ∈ cs, e.domain ∈ (cs.foldl (resolveStep resolve) st).2) := by
  intro cs
  induction cs with
  | nil => exact fun st h1 h2 => ⟨h1, h2, fun d hd => hd, fun e he => absurd he (by simp)⟩
  | cons e es ih =>
    intro st h1 h2
    by_cases hmem : e.domain ∈ st.2
    · have hstep : resolveStep resolve st e = st := by
        unfold resolveStep
        rw [h1, lookup_trace_map, if_pos hmem]
        simp
      rw [List.foldl_cons, hstep]
      obtain ⟨g1, g2, g3, g4⟩ := ih st h1 h2
      refine ⟨g1, g2, g3, fun f hf => ?_⟩
      rcases List.mem_cons.mp hf with hf | hf
      · subst hf
        exact g3 f.domain hmem
      · exact g4 f hf
    · have hstep : resolveStep resolve st e =
          (st.1 ++ [(e.domain, resolve e.domain)], st.2 ++ [e.domain]) := by
        unfold resolveStep
        rw [h1, lookup_trace_map, if_neg hmem]
        simp
      have h1n : (st.1 ++ [(e.domain, resolve e.domain)]) =
          (st.2 ++ [e.domain]).map (fun x => (x, resolve x)) := by
        rw [List.map_append, h1]
        rfl
      have h2n : (st.2 ++ [e.domain]).Nodup := by
        simp [List.nodup_append, h2, hmem]
      rw [List.foldl_cons, hstep]
      obtain ⟨g1, g2, g3, g4⟩ :=
        ih (st.1 ++ [(e.domain, resolve e.domain)], st.2 ++ [e.domain]) h1n h2n
      refine ⟨g1, g2, fun d hd => g3 d (by simp [hd]), fun f hf => ?_⟩
      rcases List.mem_cons.mp hf with hf | hf
      · subst hf
        exact g3 f.domain (by simp)
      · exact g4 f hf

/-- Claim C6: over a whole run the resolver is invoked at most once per
unique domain: the trace of resolver invocations has no duplicates, and every
endpoint domain is mapped in the cache to the single resolved address list,
so any two endpoints sharing a domain expand their targets from the identical
cached list. -/
theorem c6_resolve_once (resolve : String → List String)
    (constants : List EndpointConstant) :
    (resolveLoop resolve constants).2.Nodup ∧
    (∀ e ∈ constants,
      ((resolveLoop resolve constants).1).lookup e.domain = some (resolve e.domain)) ∧
    (∀ e1 ∈ constants, ∀ e2 ∈ constants, e1.domain = e2.domain →
      mapGet (resolveLoop resolve constants).1 e1.domain =
        mapGet (resolveLoop resolve constants).1 e2.domain) := by
  obtain ⟨g1, g2, g3, g4⟩ :=
    resolveLoop_invariant resolve constants ([], []) rfl List.nodup_nil
  refine ⟨g2, fun e he => ?_, fun e1 h1 e2 h2 hd => by rw [hd]⟩
  show ((constants.foldl (resolveStep resolve) ([], [])).1).lookup e.domain = _
  rw [g1, lookup_trace_map, if_pos (g4 e he)]

/-- Witness for C6: two endpoints sharing a domain trigger one resolution. -/
theorem c6_resolve_once_witness :
    (resolveLoop (fun d => [d])
      [{ constant := "A", category := "Spot", domain := "x.com" },
       { constant := "B", category := "Spot", domain := "x.com" }]).2.Nodup ∧
    ((resolveLoop (fun d => [d])
      [{ constant := "A", category := "Spot", domain := "x.com" },
       { constant := "B", category := "Spot", domain := "x.com" }]).1).lookup "x.com" =
      some ["x.com"] :=
  ⟨(c6_resolve_once (fun d => [d]) _).1,
   (c6_resolve_once (fun d => [d])
      [{ constant := "A", category := "Spot", domain := "x.com" },
       { constant := "B", category := "Spot", domain := "x.com" }]).2.1
     { constant := "B", category := "Spot", domain := "x.com" } (by decide)⟩

/- A successful match of a nonempty literal pins down the head of the text. -/
lemma beginsWith_head (c : Char) (cs l : List Char) (hb : beginsWith (c :: cs) l = true) :
    ∃ t, l = c :: t := by
  cases l with
  | nil => simp [beginsWith] at hb
  | cons d ds =>
    simp only [beginsWith, Bool.and_eq_true, decide_eq_true_eq] at hb
    exact ⟨ds, by rw [hb.1]⟩

/- Whenever the lower-cased PTR contains the marker ap-northeast-1, the
availability-zone filter is nonempty: the marker itself contributes its
letters a, e, a, so the fallback to a question mark is unreachable. -/
lemma filter_ne_nil_of_marker :
    ∀ l : List Char, strContains "ap-northeast-1" l = true →
      l.filter (fun c => "abcdef".data.contains c) ≠ [] := by
  intro l
  induction l with
  | nil => intro h; exact absurd h (by decide)
  | cons c cs ih =>
    intro h
    rw [strContains] at h
    by_cases hb : beginsWith "ap-northeast-1".data (c :: cs) = true
    · have hd : "ap-northeast-1".data = 'a' :: "p-northeast-1".data := by decide
      rw [hd] at hb
      obtain ⟨t, ht⟩ := beginsWith_head _ _ _ hb
      injection ht with h1 h2
      subst h1
      rw [List.filter_cons, if_pos (by decide)]
      exact List.cons_ne_nil _ _
    · rw [Bool.not_eq_true] at hb
      rw [hb, Bool.false_or] at h
      rw [List.filter_cons]
      by_cases hp : ("abcdef".data.contains c) = true
      · rw [if_pos hp]
        exact List.cons_ne_nil _ _
      · rw [if_neg hp]
        exact ih h

/-- Claim C1 (amended): a failed PTR lookup returns the literal No PTR; a
successful PTR whose lower-cased value contains ap-northeast-1 returns
AWS TOKYO ap-northeast-1 followed by every character of the lower-cased PTR
that lies in a..f, a set that is never empty because the marker itself
contains such letters (so the question-mark fallback is unreachable and the
zone suffix includes the letters a, e, a of the marker: the PTR value
ap-northeast-1c classifies to AWS TOKYO ap-northeast-1aeac, not to
AWS TOKYO ap-northeast-1c); a successful PTR with no marker returns the
lower-cased value truncated to its first 50 characters. -/
theorem c1_region_classifier (raw : String) :
    reverseDnsAws none = "No PTR" ∧
    (strContains "ap-northeast-1" (raw.data.map Char.toLower) = true →
      reverseDnsAws (some raw) =
        "AWS TOKYO ap-northeast-1" ++
          String.mk ((raw.data.map Char.toLower).filter (fun c => "abcdef".data.contains c)) ∧
      (raw.data.map Char.toLower).filter (fun c => "abcdef".data.contains c) ≠ []) ∧
    (strContains "ap-northeast-1" (raw.data.map Char.toLower) = false →
      reverseDnsAws (some raw) = String.mk ((raw.data.map Char.toLower).take 50)) ∧
    reverseDnsAws (some "ap-northeast-1c") = "AWS TOKYO ap-northeast-1aeac" := by
  refine ⟨rfl, fun h => ?_, fun h => ?_, by decide⟩
  · have hne := filter_ne_nil_of_marker _ h
    refine ⟨?_, hne⟩
    simp only [reverseDnsAws]
    rw [if_pos h, if_neg hne]
  · simp only [reverseDnsAws]
    rw [if_neg (by simp [h])]

/-- Counterexample to C1 as stated: the PTR value ap-northeast-1c contains
the substring ap-northeast-1c, yet it classifies to
AWS TOKYO ap-northeast-1aeac, because the zone filter ranges over the whole
PTR string, marker included — not to AWS TOKYO ap-northeast-1c. -/
theorem c1_counterexample :
    strContains "ap-northeast-1c" ("ap-northeast-1c".data.map Char.toLower) = true ∧
    reverseDnsAws (some "ap-northeast-1c") = "AWS TOKYO ap-northeast-1aeac" ∧
    reverseDnsAws (some "ap-northeast-1c") ≠ "AWS TOKYO ap-northeast-1c" :=
  ⟨by decide, by decide, by decide⟩

/-- Witness for C1 at the marker-bearing PTR value. -/
theorem c1_region_classifier_witness :
    reverseDnsAws (some "ap-northeast-1c") =
      "AWS TOKYO ap-northeast-1" ++
        String.mk (("ap-northeast-1c".data.map Char.toLower).filter
          (fun c => "abcdef".data.contains c)) :=
  ((c1_region_classifier "ap-northeast-1c").2.1 (by decide)).1

/-- Claim C9 (amended): on a 200 response whose body parses to a JSON object,
each of the three fields carries the stored value unchanged whenever its key
is present — even a non-string value such as null — and falls back to the
string Unknown only when its key is absent; a transport error, a non-200
status, a body that fails to parse, or a 200 body whose parsed value is not
a JSON object all yield the all-Unknown result, and in addition a 200 object
body in which all three keys are absent yields the all-Unknown result
through the three per-field defaults. -/
theorem c9_get_geo_spec (m : List (String × J)) (v : J) (s : Nat) (b : Option J) :
    (m.lookup "country" = some v → (get_geo (some (200, some (J.jobj m)))).country = v) ∧
    (m.lookup "region" = some v → (get_geo (some (200, some (J.jobj m)))).region = v) ∧
    (m.lookup "city" = some v → (get_geo (some (200, some (J.jobj m)))).city = v) ∧
    (m.lookup "country" = none →
      (get_geo (some (200, some (J.jobj m)))).country = J.jstr "Unknown") ∧
    (m.lookup "region" = none →
      (get_geo (some (200, some (J.jobj m)))).region = J.jstr "Unknown") ∧
    (m.lookup "city" = none →
      (get_geo (some (200, some (J.jobj m)))).city = J.jstr "Unknown") ∧
    get_geo none = allUnknown ∧
    (s ≠ 200 → get_geo (some (s, b)) = allUnknown) ∧
    get_geo (some (s, none)) = allUnknown ∧
    ((∀ mm : List (String × J), v ≠ J.jobj mm) →
      get_geo (some (200, some v)) = allUnknown) ∧
    (get_geo (some (200, some (J.jobj [("country", J.jnull)])))).country = J.jnull := by
  refine ⟨fun h => ?_, fun h => ?_, fun h => ?_, fun h => ?_, fun h => ?_, fun h => ?_,
    rfl, fun h => ?_, ?_, fun h => ?_, rfl⟩
  · simp [get_geo, dictGet, h, unknownStr]
  · simp [get_geo, dictGet, h, unknownStr]
  · simp [get_geo, dictGet, h, unknownStr]
  · simp [get_geo, dictGet, h, unknownStr]
  · simp [get_geo, dictGet, h, unknownStr]
  · simp [get_geo, dictGet, h, unknownStr]
  · simp [get_geo, h]
  · by_cases hs : s = 200
    · subst hs
      rfl
    · simp [get_geo, hs]
  · cases v with
    | jobj mm => exact absurd rfl (h mm)
    | jnull => rfl
    | jbool x => rfl
    | jnum x => rfl
    | jstr x => rfl
    | jarr x => rfl

/-- Counterexample to C9 as stated: a 200 response whose body is the valid
JSON object with no keys produces the all-Unknown result, so all-Unknown is
not produced only on non-200 status, transport error, or parse failure. -/
theorem c9_counterexample :
    get_geo (some (200, some (J.jobj []))) = allUnknown := rfl

/-- Witness for C9: a stored null country value is returned unchanged. -/
theorem c9_get_geo_witness :
    (get_geo (some (200, some (J.jobj [("country", J.jnull)])))).country = J.jnull :=
  (c9_get_geo_spec [("country", J.jnull)] J.jnull 0 none).1 rfl
